import Mathlib

/-!
Shallow embedding of the Senti-Analysis front-end core: the WebSocket
connection manager with its reconnection policy and listener registry
(source file src/unnamed/part_001, class WebSocketManager and the helper
analyzeTextWebSocket), the debounce utility and the analysis coordinator
(source file src/static/js/app.js, class SentimentApp). JavaScript values
carried over the wire are modelled by a small JSON value type; machine
integers do not overflow in the ranges involved, so Nat is used directly.
-/

namespace SentiAnalysis

/-- Minimal model of the JavaScript/JSON values the core passes around:
JSON.parse results, envelopes and analysis results. -/
inductive JVal where
  | jnull : JVal
  | jbool : Bool → JVal
  | jnum : Int → JVal
  | jstr : String → JVal
  | jarr : List JVal → JVal
  | jobj : List (String × JVal) → JVal

/-- Field lookup in a JSON object literal, first match wins (JavaScript
object property access on the modelled objects). -/
def lookupField : List (String × JVal) → String → Option JVal
  | [], _ => none
  | (k, v) :: rest, key => if k = key then some v else lookupField rest key

/-- Property access v.key, none when v is not an object or lacks the key
(JavaScript would yield undefined). -/
def getField (v : JVal) (key : String) : Option JVal :=
  match v with
  | JVal.jobj fields => lookupField fields key
  | _ => none

/-- JavaScript truthiness of a possibly-missing value, as used by the
check on result.error in displayAnalysisResult. -/
def jTruthy : Option JVal → Bool
  | none => false
  | some JVal.jnull => false
  | some (JVal.jbool b) => b
  | some (JVal.jnum n) => decide (n ≠ 0)
  | some (JVal.jstr s) => decide (s ≠ "")
  | some (JVal.jarr _) => true
  | some (JVal.jobj _) => true

/-- The JSON object built by send and by the server for the push channel:
an envelope with a type field and a data field. -/
def envelopeJson (ty : String) (data : JVal) : JVal :=
  JVal.jobj [("type", JVal.jstr ty), ("data", data)]

/-- Reading the type field of a parsed frame, as data.type does in the
onmessage handler; a missing or non-string field reads as undefined. -/
def typeKey (v : JVal) : String :=
  match getField v "type" with
  | some (JVal.jstr s) => s
  | _ => "undefined"

/-! ### Listener registry (the EventBus inside WebSocketManager)

A registered callback is modelled by an identifier and the outcome of
invoking it on a payload: it either returns normally or throws with a
message. The registry this.listeners is an association list from event
type to the ordered list of registrations. -/

/-- Outcome of invoking one registered callback. -/
inductive HRes where
  | ok : HRes
  | thrown : String → HRes

/-- A registered callback: an identity and its behaviour on a payload. -/
structure Handler (α : Type) where
  id : Nat
  run : α → HRes

/-- The this.listeners object: event type to ordered registrations. -/
def Registry (α : Type) : Type := List (String × List (Handler α))

/-- Lookup of this.listeners event in the registry; none models the
JavaScript undefined that makes emit return early. -/
def lookupListeners {α : Type} : Registry α → String → Option (List (Handler α))
  | [], _ => none
  | (e, hs) :: rest, event => if e = event then some hs else lookupListeners rest event

/-- The forEach loop of emit: invoke each callback in order inside a
try/catch; record every invocation (id, payload) and log the message of
every thrown error, continuing past it. -/
def runHandlers {α : Type} (payload : α) : List (Handler α) → List (Nat × α) × List String
  | [] => ([], [])
  | h :: rest =>
    let r := runHandlers payload rest
    match h.run payload with
    | HRes.ok => ((h.id, payload) :: r.1, r.2)
    | HRes.thrown m => ((h.id, payload) :: r.1, m :: r.2)

/-- WebSocketManager.emit: return early when no listener list exists for
the event, otherwise run every registered callback in registration order,
catching and logging throws. The result is the invocation log and the
logged error messages; emit is a total function, so no handler error
propagates to its caller. -/
def emit {α : Type} (ls : Registry α) (event : String) (payload : α) :
    List (Nat × α) × List String :=
  match lookupListeners ls event with
  | none => ([], [])
  | some hs => runHandlers payload hs

/-- The socket.onmessage handler: when JSON.parse succeeds (modelled by
some parsed), emit a generic message event and then an event keyed by the
type field, both carrying the entire parsed value; when parsing throws
(none), the error is caught and logged and nothing is emitted. The
returned list is the concatenated invocation log of the two emits. -/
def onMessage (ls : Registry JVal) (parsed : Option JVal) : List (Nat × JVal) :=
  match parsed with
  | none => []
  | some v => (emit ls "message" v).1 ++ (emit ls (typeKey v) v).1

/-! ### WebSocketManager state and operations -/

/-- readyState of the current socket object. -/
inductive ReadyState where
  | CONNECTING : ReadyState
  | OPEN : ReadyState
  | CLOSING : ReadyState
  | CLOSED : ReadyState
deriving DecidableEq, Repr

/-- Value written by updateConnectionStatus (the connection indicator). -/
inductive ConnStatus where
  | connecting : ConnStatus
  | connected : ConnStatus
  | disconnected : ConnStatus
  | error : ConnStatus
deriving DecidableEq, Repr

/-- State of a WebSocketManager instance. socketGen counts the WebSocket
objects constructed so far (each new WebSocket call increments it);
pendingTimer holds the delay of a scheduled reconnect timer when one is
outstanding; errorToasts counts the Connection Failed toasts shown. -/
structure WSState where
  socketGen : Nat
  readyState : ReadyState
  isConnected : Bool
  reconnectAttempts : Nat
  maxReconnectAttempts : Nat
  reconnectInterval : Nat
  status : ConnStatus
  pendingTimer : Option Nat
  errorToasts : Nat
deriving DecidableEq, Repr

/-- WebSocketManager.connect: builds the URL from the page origin and
constructs a new WebSocket unconditionally, installing the handlers. The
new socket starts in readyState CONNECTING. No field of the manager other
than the socket reference changes here; the catch branch guards only a
constructor failure on a malformed URL, which cannot occur for the URL
built from the location, so it is not reachable in this model. -/
def connect (s : WSState) : WSState :=
  { s with socketGen := s.socketGen + 1, readyState := ReadyState.CONNECTING }

/-- The socket.onopen handler: mark connected, reset the attempt counter
and the base interval, set the indicator to connected (a connected toast
and a connected event are also emitted, not tracked here). -/
def handleOpen (s : WSState) : WSState :=
  { s with isConnected := true, readyState := ReadyState.OPEN,
           reconnectAttempts := 0, reconnectInterval := 1000,
           status := ConnStatus.connected }

/-- WebSocketManager.scheduleReconnect: increment the attempt counter
first, then compute the delay min(reconnectInterval * 2 ^ attempts, 30000)
from the incremented counter, and set a timer for that delay. Returns the
new state and the computed delay. -/
def scheduleReconnect (s : WSState) : WSState × Nat :=
  let attempts := s.reconnectAttempts + 1
  let delay := min (s.reconnectInterval * 2 ^ attempts) 30000
  ({ s with reconnectAttempts := attempts, pendingTimer := some delay }, delay)

/-- The socket.onclose handler: mark disconnected and set the indicator;
then, when the close was not clean and the attempt counter is below the
maximum, schedule a reconnect; otherwise, when the counter has reached the
maximum, show the Connection Failed toast and set the indicator to error. -/
def handleClose (s : WSState) (wasClean : Bool) : WSState :=
  let s1 := { s with isConnected := false, readyState := ReadyState.CLOSED,
                     status := ConnStatus.disconnected }
  if wasClean = false ∧ s1.reconnectAttempts < s1.maxReconnectAttempts then
    (scheduleReconnect s1).1
  else if s1.maxReconnectAttempts ≤ s1.reconnectAttempts then
    { s1 with errorToasts := s1.errorToasts + 1, status := ConnStatus.error }
  else s1

/-- The socket.onerror handler: set the indicator to error (an error
event is also emitted); it schedules nothing itself. -/
def handleError (s : WSState) : WSState :=
  { s with status := ConnStatus.error }

/-- The callback passed to setTimeout in scheduleReconnect: when the timer
fires it is consumed, and connect is called only when isConnected is still
false. With no timer outstanding nothing happens. -/
def fireReconnectTimer (s : WSState) : WSState :=
  match s.pendingTimer with
  | none => s
  | some _ =>
    let s1 := { s with pendingTimer := none }
    if s1.isConnected = true then s1 else connect s1

/-- WebSocketManager.send: when not connected or the socket readyState is
not OPEN, warn and return false; otherwise serialize the envelope
(type, data) and transmit it, returning true. The transmitted message is
returned alongside. JSON.stringify of a finite JVal envelope is total and
socket.send does not throw on an OPEN socket, so the catch branch of the
source is unreachable in this model and send never throws. -/
def send (s : WSState) (ty : String) (data : JVal) : Bool × Option JVal :=
  if s.isConnected = false ∨ s.readyState ≠ ReadyState.OPEN then
    (false, none)
  else
    (true, some (envelopeJson ty data))

/-- The manager state right after the constructor ran: fields initialised
and connect called once. -/
def initWS : WSState :=
  { socketGen := 1, readyState := ReadyState.CONNECTING, isConnected := false,
    reconnectAttempts := 0, maxReconnectAttempts := 5, reconnectInterval := 1000,
    status := ConnStatus.connecting, pendingTimer := none, errorToasts := 0 }

/-- Events a manager instance can receive: socket callbacks, the reconnect
timer firing, and an explicit external connect call. -/
inductive WSEvent where
  | openEv : WSEvent
  | closeEv : Bool → WSEvent
  | errorEv : WSEvent
  | timerFire : WSEvent
  | explicitConnect : WSEvent

/-- Dispatch of one event to the corresponding handler. -/
def wsStep (s : WSState) : WSEvent → WSState
  | WSEvent.openEv => handleOpen s
  | WSEvent.closeEv wc => handleClose s wc
  | WSEvent.errorEv => handleError s
  | WSEvent.timerFire => fireReconnectTimer s
  | WSEvent.explicitConnect => connect s

/-- Run of a sequence of events from a state. -/
def wsRun (s : WSState) : List WSEvent → WSState
  | [] => s
  | e :: rest => wsRun (wsStep s e) rest

/-- The successive delays produced by k consecutive calls to
scheduleReconnect from a given state. -/
def reconnectDelays (s : WSState) : Nat → List Nat
  | 0 => []
  | k + 1 =>
    let r := scheduleReconnect s
    r.2 :: reconnectDelays r.1 k

/-! ### Debounce utility (SentimentApp.debounce)

The closure state of the debounced function is the pending timeout: when
one is outstanding it holds the virtual firing time and the captured
arguments. A call clears any pending timeout and sets a fresh one for the
quiet window after the call time; cancel clears any pending timeout. Time
is a Nat of milliseconds. -/

/-- Closure state of a debounced function: the pending timeout, as the
pair (firing time, captured arguments) when one is set. -/
structure DebState (α : Type) where
  pending : Option (Nat × α)

/-- Observable actions on the debounced trigger, each at a time point. -/
inductive DebEvent (α : Type) where
  | call : Nat → α → DebEvent α
  | cancelAt : Nat → DebEvent α

/-- Time of an event. -/
def DebEvent.time {α : Type} : DebEvent α → Nat
  | DebEvent.call t _ => t
  | DebEvent.cancelAt t => t

/-- Passage of time up to t: a pending timeout whose firing time has been
reached fires (the wrapped function runs on the captured arguments, here
collected in a list) and is consumed; otherwise nothing happens. -/
def advance {α : Type} (s : DebState α) (t : Nat) : List α × DebState α :=
  match s.pending with
  | some p => if p.1 ≤ t then ([p.2], ⟨none⟩) else ([], s)
  | none => ([], s)

/-- Effect of one action on the closure state: a call clears any pending
timeout and schedules a new one for the call time plus the window w;
cancel clears any pending timeout. -/
def applyEvent {α : Type} (w : Nat) (_s : DebState α) : DebEvent α → DebState α
  | DebEvent.call t a => ⟨some (t + w, a)⟩
  | DebEvent.cancelAt _ => ⟨none⟩

/-- Run of a time-ordered action sequence from a state, observing fires up
to a final time T: before each action, time advances to the action time
(firing a due timeout); at the end, time advances to T. The result is the
list of wrapped-function invocations, each with its captured arguments. -/
def runD {α : Type} (w : Nat) : DebState α → List (DebEvent α) → Nat → List α
  | s, [], T => (advance s T).1
  | s, e :: rest, T =>
    let p := advance s (DebEvent.time e)
    p.1 ++ runD w (applyEvent w p.2 e) rest T

/-- A call sequence is rapid for window w when its times are monotone and
each later call comes strictly less than w after the previous one. -/
def rapid {α : Type} (w : Nat) : List (Nat × α) → Prop
  | [] => True
  | [_] => True
  | c1 :: c2 :: rest => c1.1 ≤ c2.1 ∧ c2.1 < c1.1 + w ∧ rapid w (c2 :: rest)

/-- The action sequence of a list of calls. -/
def eventsOf {α : Type} (calls : List (Nat × α)) : List (DebEvent α) :=
  calls.map (fun c => DebEvent.call c.1 c.2)

/-- The idle closure state: no pending timeout. -/
def debInit {α : Type} : DebState α := ⟨none⟩

/-! ### Analysis coordinator (SentimentApp.analyzeText)

The coordinator state is the isAnalyzing flag, the analyze-button loading
state and the visibility of the results section. The environment supplies
everything the browser does: the realtime toggle, the global wsManager
instance, and the outcome of the fallback fetch. -/

/-- Coordinator state of the SentimentApp instance. -/
structure AppState where
  isAnalyzing : Bool
  analyzeButtonLoading : Bool
  resultsVisible : Bool
deriving DecidableEq, Repr

/-- Outcome of the fetch to /api/analyze: the promise rejects (network
failure), or a response arrives with its ok flag, status and status text
and a body whose json() either parses to a result or rejects. -/
inductive FetchOutcome where
  | netFail : String → FetchOutcome
  | response : Bool → Nat → String → Except String JVal → FetchOutcome

/-- Environment of one analyzeText call: the realtime toggle checkbox,
the global window.wsManager (none before initialisation), and the fetch
outcome the network would produce. -/
structure AnalyzeEnv where
  realtimeToggleChecked : Bool
  wsManager : Option WSState
  fetchOutcome : FetchOutcome

/-- Observable outputs of one analyzeText call: how many times
wsManager.send was called, the envelopes actually transmitted, how many
fetches were issued, the results displayed, and the toast titles shown. -/
structure AnalyzeOut where
  wsSendCalls : Nat
  wsSent : List JVal
  fetchCalls : Nat
  displayed : List JVal
  toastTitles : List String

/-- No observable output. -/
def emptyOut : AnalyzeOut :=
  { wsSendCalls := 0, wsSent := [], fetchCalls := 0, displayed := [], toastTitles := [] }

/-- Sequencing of outputs. -/
def mergeOut (a b : AnalyzeOut) : AnalyzeOut :=
  { wsSendCalls := a.wsSendCalls + b.wsSendCalls, wsSent := a.wsSent ++ b.wsSent,
    fetchCalls := a.fetchCalls + b.fetchCalls, displayed := a.displayed ++ b.displayed,
    toastTitles := a.toastTitles ++ b.toastTitles }

/-- The check window.wsManager and wsManager.isConnected used by the
guard in analyzeText. -/
def wsConnectedB (env : AnalyzeEnv) : Bool :=
  match env.wsManager with
  | none => false
  | some w => w.isConnected

/-- String.prototype.trim, modelled by dropping leading and trailing
whitespace characters. -/
def jsTrim (s : String) : String :=
  String.mk (((s.data.dropWhile Char.isWhitespace).reverse.dropWhile
    Char.isWhitespace).reverse)

/-- The helper analyzeTextWebSocket: returns false without calling send
when wsManager is absent or not connected; otherwise calls
wsManager.send with an analyze_text envelope carrying the text, returning
what send returns. -/
def analyzeTextWebSocket (env : AnalyzeEnv) (text : String) : Bool × AnalyzeOut :=
  match env.wsManager with
  | none => (false, emptyOut)
  | some w =>
    if w.isConnected = false then (false, emptyOut)
    else
      let r := send w "analyze_text" (JVal.jobj [("text", JVal.jstr text)])
      (r.1, { emptyOut with wsSendCalls := 1, wsSent := r.2.toList })

/-- SentimentApp.displayAnalysisResult: a result carrying a truthy error
field only shows an Analysis Error toast; otherwise the result is shown
and the results section made visible. -/
def displayAnalysisResult (s : AppState) (r : JVal) : AppState × List String × List JVal :=
  if jTruthy (getField r "error") = true then (s, ["Analysis Error"], [])
  else ({ s with resultsVisible := true }, [], [r])

/-- The fallback fetch to /api/analyze inside the try block, together
with the catch block of analyzeText: a rejected fetch, a not-ok response
or a rejected json() throws, is caught and shows an Analysis Error toast;
a parsed result is passed to displayAnalysisResult, and for a manual call
the results section is then made visible. -/
def fetchAnalyze (env : AnalyzeEnv) (s : AppState) (isRealtime : Bool) :
    AppState × AnalyzeOut :=
  match env.fetchOutcome with
  | FetchOutcome.netFail _ =>
    (s, { emptyOut with fetchCalls := 1, toastTitles := ["Analysis Error"] })
  | FetchOutcome.response ok _ _ body =>
    if ok = false then
      (s, { emptyOut with fetchCalls := 1, toastTitles := ["Analysis Error"] })
    else
      match body with
      | Except.error _ =>
        (s, { emptyOut with fetchCalls := 1, toastTitles := ["Analysis Error"] })
      | Except.ok result =>
        let d := displayAnalysisResult s result
        let s2 := if isRealtime = false then { d.1 with resultsVisible := true } else d.1
        (s2, { emptyOut with fetchCalls := 1, displayed := d.2.2, toastTitles := d.2.1 })

/-- The try/catch body of analyzeText: attempt the push channel first when
the realtime toggle is on and wsManager is connected; when that did not
succeed, fall back to the fetch. -/
def tryCatchBody (env : AnalyzeEnv) (s : AppState) (text : String) (isRealtime : Bool) :
    AppState × AnalyzeOut :=
  let wsr :=
    if env.realtimeToggleChecked = true ∧ wsConnectedB env = true then
      analyzeTextWebSocket env text
    else (false, emptyOut)
  if wsr.1 = true then (s, wsr.2)
  else
    let fr := fetchAnalyze env s isRealtime
    (fr.1, mergeOut wsr.2 fr.2)

/-- The finally block of analyzeText: only a non-realtime call clears the
isAnalyzing flag and the button loading state. -/
def finallyClear (isRealtime : Bool) (s : AppState) : AppState :=
  if isRealtime = false then { s with isAnalyzing := false, analyzeButtonLoading := false }
  else s

/-- SentimentApp.analyzeText: empty (after trim) text only resets the
button; a non-realtime call while isAnalyzing is set returns immediately;
otherwise the busy flag and the button loading state are set, the
try/catch body runs, and the finally block runs on every exit path of the
body. -/
def analyzeText (env : AnalyzeEnv) (s : AppState) (text : String) (isRealtime : Bool) :
    AppState × AnalyzeOut :=
  if (jsTrim text).length = 0 then
    ({ s with analyzeButtonLoading := false }, emptyOut)
  else if s.isAnalyzing = true ∧ isRealtime = false then
    (s, emptyOut)
  else
    let s1 := { s with isAnalyzing := true, analyzeButtonLoading := true }
    let b := tryCatchBody env s1 text isRealtime
    (finallyClear isRealtime b.1, b.2)

/-! ### Concrete instances used by witnesses and counterexamples -/

/-- A manager whose socket completed its handshake: connected and OPEN. -/
def openWS : WSState :=
  { socketGen := 1, readyState := ReadyState.OPEN, isConnected := true,
    reconnectAttempts := 0, maxReconnectAttempts := 5, reconnectInterval := 1000,
    status := ConnStatus.connected, pendingTimer := none, errorToasts := 0 }

/-- A connected manager with a reconnect timer still outstanding. -/
def openTimerWS : WSState := { openWS with pendingTimer := some 2000 }

/-- A manager that has exhausted its reconnect attempts: the counter at
the maximum, the last socket closed, no timer outstanding. -/
def exhaustedWS : WSState :=
  { socketGen := 6, readyState := ReadyState.CLOSED, isConnected := false,
    reconnectAttempts := 5, maxReconnectAttempts := 5, reconnectInterval := 1000,
    status := ConnStatus.disconnected, pendingTimer := none, errorToasts := 0 }

/-- A bus with one throwing and one normal registration for one event. -/
def demoBus : Registry Nat :=
  [("analysis_result", [⟨1, fun _ => HRes.thrown "boom"⟩, ⟨2, fun _ => HRes.ok⟩])]

/-- A registry with a generic message handler and a type-specific one. -/
def demoReg : Registry JVal :=
  [("message", [⟨1, fun _ => HRes.ok⟩]), ("analysis_result", [⟨2, fun _ => HRes.ok⟩])]

/-- A parsed inbound envelope whose data field is the empty object. -/
def demoEnv : JVal := envelopeJson "analysis_result" (JVal.jobj [])

/-- The coordinator state right after construction. -/
def appInit : AppState :=
  { isAnalyzing := false, analyzeButtonLoading := false, resultsVisible := false }

/-- A coordinator with a submission outstanding. -/
def busyApp : AppState :=
  { isAnalyzing := true, analyzeButtonLoading := true, resultsVisible := false }

/-- Environment with the realtime toggle on but no wsManager yet, and a
fallback response that parses to the empty-object result. -/
def rtEnv : AnalyzeEnv :=
  { realtimeToggleChecked := true, wsManager := none,
    fetchOutcome := FetchOutcome.response true 200 "OK" (Except.ok (JVal.jobj [])) }

/-- Environment whose fallback fetch rejects with a network failure. -/
def failEnv : AnalyzeEnv :=
  { realtimeToggleChecked := false, wsManager := some openWS,
    fetchOutcome := FetchOutcome.netFail "Failed to fetch" }

/-- Environment with the realtime toggle on and a connected wsManager. -/
def wsEnv : AnalyzeEnv :=
  { realtimeToggleChecked := true, wsManager := some openWS,
    fetchOutcome := FetchOutcome.response true 200 "OK" (Except.ok (JVal.jobj [])) }

/-! ### Helper lemmas -/

/-- The forEach loop of emit invokes every callback of the list exactly
once, in order, with the payload, and logs exactly the thrown messages. -/
theorem runHandlers_log {α : Type} (payload : α) (hs : List (Handler α)) :
    (runHandlers payload hs).1 = hs.map (fun q => (q.id, payload)) ∧
    (runHandlers payload hs).2 = hs.filterMap (fun q =>
      match q.run payload with
      | HRes.ok => none
      | HRes.thrown m => some m) := by
  induction hs with
  | nil => exact ⟨rfl, rfl⟩
  | cons h rest ih =>
    unfold runHandlers
    cases hr : h.run payload <;> simp [hr, ih.1, ih.2]

/-- Characterisation of emit on an event with a registered listener
list: the invocation log and the error log. -/
theorem emit_spec {α : Type} (ls : Registry α) (event : String) (payload : α)
    (hs : List (Handler α)) (h : lookupListeners ls event = some hs) :
    (emit ls event payload).1 = hs.map (fun q => (q.id, payload)) ∧
    (emit ls event payload).2 = hs.filterMap (fun q =>
      match q.run payload with
      | HRes.ok => none
      | HRes.thrown m => some m) := by
  unfold emit
  rw [h]
  exact runHandlers_log payload hs

/-- Reading the type field back from a built envelope. -/
theorem typeKey_envelopeJson (ty : String) (d : JVal) :
    typeKey (envelopeJson ty d) = ty := by
  simp [typeKey, envelopeJson, getField, lookupField]

/-- No step changes the maximum attempt bound. -/
theorem wsStep_max (s : WSState) (e : WSEvent) :
    (wsStep s e).maxReconnectAttempts = s.maxReconnectAttempts := by
  cases e with
  | openEv => rfl
  | closeEv wc =>
    simp only [wsStep, handleClose]
    split
    · rfl
    · split <;> rfl
  | errorEv => rfl
  | timerFire =>
    simp only [wsStep, fireReconnectTimer]
    split
    · rfl
    · split <;> rfl
  | explicitConnect => rfl

/-- No step raises the attempt counter past the maximum: the only place
that increments it, the close handler, does so under the guard that the
counter is still below the maximum. -/
theorem wsStep_inv (s : WSState) (e : WSEvent)
    (h : s.reconnectAttempts ≤ s.maxReconnectAttempts) :
    (wsStep s e).reconnectAttempts ≤ (wsStep s e).maxReconnectAttempts := by
  cases e with
  | openEv => exact Nat.zero_le _
  | closeEv wc =>
    simp only [wsStep, handleClose]
    split
    · next hc => simpa [scheduleReconnect] using hc.2
    · split <;> exact h
  | errorEv => exact h
  | timerFire =>
    simp only [wsStep, fireReconnectTimer]
    split
    · exact h
    · split
      · exact h
      · exact h
  | explicitConnect => exact h

/-- The attempt bound is constant along every run. -/
theorem wsRun_max (evs : List WSEvent) :
    ∀ s : WSState, (wsRun s evs).maxReconnectAttempts = s.maxReconnectAttempts := by
  induction evs with
  | nil => intro s; rfl
  | cons e rest ih =>
    intro s
    calc (wsRun (wsStep s e) rest).maxReconnectAttempts
        = (wsStep s e).maxReconnectAttempts := ih _
      _ = s.maxReconnectAttempts := wsStep_max s e

/-- The attempt counter stays below the bound along every run. -/
theorem wsRun_inv (evs : List WSEvent) :
    ∀ s : WSState, s.reconnectAttempts ≤ s.maxReconnectAttempts →
      (wsRun s evs).reconnectAttempts ≤ (wsRun s evs).maxReconnectAttempts := by
  induction evs with
  | nil => intro s h; simpa [wsRun] using h
  | cons e rest ih =>
    intro s h
    exact ih _ (wsStep_inv s e h)

/-! ### Claim theorems -/

/-- Claim C1, counterexample. The claim states that the reconnect delays
for attempts 1..5 are 1000, 2000, 4000, 8000, 16000; but scheduleReconnect
increments the attempt counter before computing the delay, so the delay it
computes before attempt 1, from the freshly constructed manager, is
min(1000 * 2 ^ 1, 30000) = 2000, not the 1000 the claimed sequence
asserts. -/
theorem claim1_counterexample :
    (scheduleReconnect initWS).2 = 2000 ∧ ¬ (scheduleReconnect initWS).2 = 1000 := by
  decide

/-- Claim C1, amended. For every reconnect attempt n in 1..5 the delay
computed before attempt n equals min(1000 * 2 ^ n, 30000), yielding the
sequence 2000, 4000, 8000, 16000, 30000 for attempts 1 through 5 (the
fifth delay is capped), and once the attempt counter has reached the
maximum the close handler schedules no further automatic attempt, so no
6th automatic attempt occurs. -/
theorem claim1_theorem :
    reconnectDelays initWS 5 = [2000, 4000, 8000, 16000, 30000] ∧
    (∀ n : Nat, 1 ≤ n → n ≤ 5 →
      (reconnectDelays initWS 5).get? (n - 1) = some (min (1000 * 2 ^ n) 30000)) ∧
    (∀ s : WSState, s.maxReconnectAttempts ≤ s.reconnectAttempts →
      (handleClose s false).pendingTimer = s.pendingTimer ∧
      (handleClose s false).reconnectAttempts = s.reconnectAttempts) := by
  refine ⟨rfl, ?_, ?_⟩
  · intro n h1 h5
    interval_cases n <;> rfl
  · intro s h
    have hlt : ¬ s.reconnectAttempts < s.maxReconnectAttempts := Nat.not_lt.mpr h
    simp [handleClose, hlt, h]

/-- Claim C1, witness: the delay before attempt 1 follows the formula,
and an exhausted manager schedules nothing on a further abnormal close. -/
theorem claim1_witness :
    (reconnectDelays initWS 5).get? 0 = some (min (1000 * 2 ^ 1) 30000) ∧
    (handleClose exhaustedWS false).pendingTimer = exhaustedWS.pendingTimer :=
  ⟨claim1_theorem.2.1 1 (by decide) (by decide),
   (claim1_theorem.2.2 exhaustedWS (by decide)).1⟩

/-- Claim C2, counterexample. The claim states that connect is idempotent
and creates no new socket when the connection is already OPEN; but the
source connect has no such guard: from a connected OPEN manager, connect
constructs one more WebSocket. -/
theorem claim2_counterexample :
    openWS.isConnected = true ∧ openWS.readyState = ReadyState.OPEN ∧
    (connect openWS).socketGen = openWS.socketGen + 1 := by
  decide

/-- Claim C2, amended. The connect of the source is not guarded: from
every state, also when already CONNECTING or OPEN, it constructs exactly
one new socket and changes nothing else of the manager state; the only
protection against a concurrent second socket lies outside connect, in
the reconnect timer callback, which invokes connect only when
isConnected is false. -/
theorem claim2_theorem (s : WSState) :
    connect s = { s with socketGen := s.socketGen + 1,
                         readyState := ReadyState.CONNECTING } :=
  rfl

/-- Claim C6. For every call of send: when the manager is not connected
or the socket readyState is not OPEN, send returns false (and, being a
total function, throws nothing); when the state is OPEN, send serializes
the (type, data) envelope, transmits it, and returns true. -/
theorem claim6_theorem (s : WSState) (ty : String) (data : JVal) :
    (s.isConnected = false ∨ s.readyState ≠ ReadyState.OPEN →
      send s ty data = (false, none)) ∧
    (s.isConnected = true → s.readyState = ReadyState.OPEN →
      send s ty data = (true, some (envelopeJson ty data))) := by
  constructor
  · intro h
    simp [send, h]
  · intro h1 h2
    simp [send, h1, h2]

/-- Claim C6, witness: the freshly constructed manager (still CONNECTING)
returns false, and an OPEN manager transmits the serialized envelope. -/
theorem claim6_witness :
    send initWS "analyze_text" JVal.jnull = (false, none) ∧
    send openWS "analyze_text" JVal.jnull =
      (true, some (envelopeJson "analyze_text" JVal.jnull)) :=
  ⟨(claim6_theorem initWS "analyze_text" JVal.jnull).1 (Or.inl rfl),
   (claim6_theorem openWS "analyze_text" JVal.jnull).2 rfl rfl⟩

/-- Claim C3, counterexample. The claim states that both the generic
message event and the type-keyed event carry the data field of the
envelope; but the onmessage handler passes the whole parsed envelope to
both emits. For the concrete envelope whose data field is the empty
object, both handlers receive the entire envelope, which differs from
that data field. -/
theorem claim3_counterexample :
    getField demoEnv "data" = some (JVal.jobj []) ∧
    (onMessage demoReg (some demoEnv)).map Prod.snd = [demoEnv, demoEnv] ∧
    ¬ demoEnv = JVal.jobj [] := by
  refine ⟨rfl, rfl, ?_⟩
  intro hcontra
  simp [demoEnv, envelopeJson] at hcontra

/-- Claim C3, amended. For every inbound frame that parses successfully
as an envelope (type, data), the manager emits both a generic message
event and an event keyed by the type field, and the payload passed to the
handlers of each of these two events is the entire parsed envelope (not
its data field): first every message handler, then every type-keyed
handler, each exactly once with that payload. -/
theorem claim3_theorem (ls : Registry JVal) (ty : String) (d : JVal)
    (hs1 hs2 : List (Handler JVal))
    (h1 : lookupListeners ls "message" = some hs1)
    (h2 : lookupListeners ls ty = some hs2) :
    onMessage ls (some (envelopeJson ty d)) =
      hs1.map (fun q => (q.id, envelopeJson ty d)) ++
      hs2.map (fun q => (q.id, envelopeJson ty d)) := by
  have hO : onMessage ls (some (envelopeJson ty d)) =
      (emit ls "message" (envelopeJson ty d)).1 ++
      (emit ls (typeKey (envelopeJson ty d)) (envelopeJson ty d)).1 := rfl
  rw [hO, typeKey_envelopeJson ty d]
  rw [(emit_spec ls "message" (envelopeJson ty d) hs1 h1).1]
  rw [(emit_spec ls ty (envelopeJson ty d) hs2 h2).1]

/-- Claim C3, witness: a frame of type analysis_result reaches the one
message handler and the one type handler of the demo registry, both with
the whole envelope. -/
theorem claim3_witness :
    onMessage demoReg (some (envelopeJson "analysis_result" JVal.jnull)) =
      [(1, envelopeJson "analysis_result" JVal.jnull),
       (2, envelopeJson "analysis_result" JVal.jnull)] := by
  have h := claim3_theorem demoReg "analysis_result" JVal.jnull
      [⟨1, fun _ => HRes.ok⟩] [⟨2, fun _ => HRes.ok⟩] rfl rfl
  exact h.trans rfl

/-- Claim C5. First part: along every event sequence from the freshly
constructed manager, the reconnect attempt counter never exceeds the
maximum of 5. Second part: once the counter has reached the maximum, a
further abnormal close sets the indicator to error, schedules no further
automatic reconnect (the pending timer is unchanged), and with no timer
outstanding the state is a fixed point of the timer callback, so it stays
in error until an explicit external connect call. -/
theorem claim5_theorem :
    (∀ evs : List WSEvent, (wsRun initWS evs).reconnectAttempts ≤ 5) ∧
    (∀ s : WSState, s.maxReconnectAttempts ≤ s.reconnectAttempts →
      (handleClose s false).status = ConnStatus.error ∧
      (handleClose s false).pendingTimer = s.pendingTimer ∧
      (s.pendingTimer = none →
        fireReconnectTimer (handleClose s false) = handleClose s false)) := by
  constructor
  · intro evs
    have h1 := wsRun_inv evs initWS (by decide)
    have h2 := wsRun_max evs initWS
    rw [h2] at h1
    exact h1
  · intro s h
    have hlt : ¬ s.reconnectAttempts < s.maxReconnectAttempts := Nat.not_lt.mpr h
    refine ⟨?_, ?_, ?_⟩
    · simp [handleClose, hlt, h]
    · simp [handleClose, hlt, h]
    · intro hnone
      simp [handleClose, hlt, h, fireReconnectTimer, hnone]

/-- Claim C5, witness: a run of two abnormal-close cycles keeps the
counter below 5, and a further abnormal close on the exhausted manager
yields the error indicator. -/
theorem claim5_witness :
    (wsRun initWS [WSEvent.closeEv false, WSEvent.timerFire,
        WSEvent.closeEv false, WSEvent.timerFire]).reconnectAttempts ≤ 5 ∧
    (handleClose exhaustedWS false).status = ConnStatus.error :=
  ⟨claim5_theorem.1 [WSEvent.closeEv false, WSEvent.timerFire,
      WSEvent.closeEv false, WSEvent.timerFire],
   (claim5_theorem.2 exhaustedWS (by decide)).1⟩

/-- Claim C7. For every emit and every listener list registered for the
event type, each handler is invoked exactly once, in registration order,
with the payload; the messages of throwing handlers are caught and
logged, a throwing handler does not prevent the remaining handlers from
being invoked (the invocation log is the full list regardless of the
outcomes), and since emit is a total function no handler exception
propagates to its caller. -/
theorem claim7_theorem {α : Type} (ls : Registry α) (event : String) (payload : α)
    (hs : List (Handler α)) (h : lookupListeners ls event = some hs) :
    (emit ls event payload).1 = hs.map (fun q => (q.id, payload)) ∧
    (emit ls event payload).2 = hs.filterMap (fun q =>
      match q.run payload with
      | HRes.ok => none
      | HRes.thrown m => some m) :=
  emit_spec ls event payload hs h

/-- Claim C7, witness: on the demo bus, the throwing handler and the
normal handler are each invoked once, in order, and only the thrown
message is logged. -/
theorem claim7_witness :
    (emit demoBus "analysis_result" 7).1 = [(1, 7), (2, 7)] ∧
    (emit demoBus "analysis_result" 7).2 = ["boom"] := by
  have h := claim7_theorem demoBus "analysis_result" 7
      [⟨1, fun _ => HRes.thrown "boom"⟩, ⟨2, fun _ => HRes.ok⟩] rfl
  exact ⟨h.1.trans rfl, h.2.trans rfl⟩

/-- Claim C10. When a scheduled reconnect timer fires, the callback calls
connect only when the connection is not open at that moment: with
isConnected true the timer is consumed and the state is otherwise
unchanged (in particular no new socket is constructed), and with
isConnected false the timer is consumed and connect runs. -/
theorem claim10_theorem (s : WSState) (d : Nat) (h : s.pendingTimer = some d) :
    (s.isConnected = true →
      fireReconnectTimer s = { s with pendingTimer := none }) ∧
    (s.isConnected = false →
      fireReconnectTimer s = connect { s with pendingTimer := none }) := by
  constructor
  · intro hc
    simp [fireReconnectTimer, h, hc]
  · intro hc
    simp [fireReconnectTimer, h, hc]

/-- Claim C10, witness: a timer firing while the connection is open
consumes the timer and opens no new socket. -/
theorem claim10_witness :
    fireReconnectTimer openTimerWS = { openTimerWS with pendingTimer := none } :=
  (claim10_theorem openTimerWS 2000 rfl).1 rfl

/-- Claim C4, counterexample. The claim states that the busy flag is
cleared when the analysis attempt completes for any mode; but the finally
block clears it only for non-realtime calls: a realtime submission that
runs to completion leaves isAnalyzing set. -/
theorem claim4_counterexample :
    appInit.isAnalyzing = false ∧
    (analyzeText rtEnv appInit "This is good product review text" true).1.isAnalyzing
      = true := by
  exact ⟨rfl, by decide⟩

/-- Claim C4, amended. For every manual (non-realtime) submission entered
with the busy flag clear, whatever the environment and text — push-channel
success, fallback success, HTTP error, network failure, unparsable body,
error-bearing result, or empty text — the coordinator exits with the busy
flag and the button loading state cleared; realtime submissions are not
cleared by the completion handler. -/
theorem claim4_theorem (env : AnalyzeEnv) (s : AppState) (text : String)
    (h : s.isAnalyzing = false) :
    (analyzeText env s text false).1.isAnalyzing = false ∧
    (analyzeText env s text false).1.analyzeButtonLoading = false := by
  by_cases h0 : (jsTrim text).length = 0
  · simp [analyzeText, h0, h]
  · simp [analyzeText, h0, h, finallyClear]

/-- Claim C4, witness: a manual submission whose fallback fetch rejects
still exits with the busy flag cleared. -/
theorem claim4_witness :
    (analyzeText failEnv appInit "great" false).1.isAnalyzing = false ∧
    (analyzeText failEnv appInit "great" false).1.analyzeButtonLoading = false :=
  claim4_theorem failEnv appInit "great" rfl

/-- Claim C9. For every state with the busy flag set, a second manual
submission is a no-op: it calls wsManager.send zero times, issues zero
fallback fetches, leaves the busy flag set, and for non-empty text leaves
the coordinator state entirely unchanged. -/
theorem claim9_theorem (env : AnalyzeEnv) (s : AppState) (text : String)
    (h : s.isAnalyzing = true) :
    (analyzeText env s text false).2.wsSendCalls = 0 ∧
    (analyzeText env s text false).2.fetchCalls = 0 ∧
    (analyzeText env s text false).1.isAnalyzing = true ∧
    ((jsTrim text).length ≠ 0 → (analyzeText env s text false).1 = s) := by
  by_cases h0 : (jsTrim text).length = 0
  · simp [analyzeText, h0, h, emptyOut]
  · simp [analyzeText, h0, h, emptyOut]

/-- Claim C9, witness: with the push channel connected and the realtime
toggle on, a second manual submission still sends nothing and fetches
nothing. -/
theorem claim9_witness :
    (analyzeText wsEnv busyApp "More good text" false).2.wsSendCalls = 0 ∧
    (analyzeText wsEnv busyApp "More good text" false).2.fetchCalls = 0 :=
  ⟨(claim9_theorem wsEnv busyApp "More good text" rfl).1,
   (claim9_theorem wsEnv busyApp "More good text" rfl).2.1⟩

/-- Processing a rapid call sequence from a pending timeout neither fires
anything along the way nor forgets the latest arguments: the only
possible fire is the trailing one of the last call, due at its time plus
the window. -/
theorem runD_rapid {α : Type} (w T : Nat) :
    ∀ (cs : List (Nat × α)) (t : Nat) (a : α), rapid w ((t, a) :: cs) →
      runD w ⟨some (t + w, a)⟩ (eventsOf cs) T =
        if (cs.getLastD (t, a)).1 + w ≤ T then [(cs.getLastD (t, a)).2] else [] := by
  intro cs
  induction cs with
  | nil =>
    intro t a _h
    by_cases hle : t + w ≤ T
    · simp [runD, eventsOf, advance, List.getLastD, hle]
    · simp [runD, eventsOf, advance, List.getLastD, hle]
  | cons c cs ih =>
    intro t a h
    obtain ⟨h1, h2, h3⟩ := h
    have h3e : rapid w ((c.1, c.2) :: cs) := by rw [Prod.mk.eta]; exact h3
    have hnf : ¬ t + w ≤ c.1 := Nat.not_le.mpr h2
    have hstep : runD w ⟨some (t + w, a)⟩ (eventsOf (c :: cs)) T =
        runD w ⟨some (c.1 + w, c.2)⟩ (eventsOf cs) T := by
      simp [eventsOf, runD, advance, DebEvent.time, applyEvent, hnf]
    rw [hstep, ih c.1 c.2 h3e, Prod.mk.eta, List.getLastD_cons]

/-- Claim C8. For every rapid call sequence (consecutive calls separated
by less than the window w), running the debounced trigger from idle fires
exactly one trailing invocation, with the arguments of the last call, and
only once the stream has been quiet for the full window: observing before
the last call time plus w shows no invocation, observing at or after it
shows exactly the one. Moreover, from the state right after a cancel,
nothing ever fires when the trigger is not called again. -/
theorem claim8_theorem {α : Type} (w T : Nat) (t : Nat) (a : α)
    (cs : List (Nat × α)) (h : rapid w ((t, a) :: cs)) :
    ((cs.getLastD (t, a)).1 + w ≤ T →
      runD w debInit (eventsOf ((t, a) :: cs)) T = [(cs.getLastD (t, a)).2]) ∧
    (T < (cs.getLastD (t, a)).1 + w →
      runD w debInit (eventsOf ((t, a) :: cs)) T = []) ∧
    (∀ (s : DebState α) (tc T2 : Nat),
      runD w (applyEvent w s (DebEvent.cancelAt tc)) [] T2 = []) := by
  have hfirst : runD w debInit (eventsOf ((t, a) :: cs)) T =
      runD w ⟨some (t + w, a)⟩ (eventsOf cs) T := by
    simp [eventsOf, runD, debInit, advance, DebEvent.time, applyEvent]
  have hmain := runD_rapid w T cs t a h
  refine ⟨?_, ?_, ?_⟩
  · intro hle
    rw [hfirst, hmain, if_pos hle]
  · intro hlt
    rw [hfirst, hmain, if_neg (Nat.not_le.mpr hlt)]
  · intro s tc T2
    simp [runD, applyEvent, advance]

/-- Claim C8, witness: two calls 1000 ms apart with a 1500 ms window fire
exactly once, with the second argument, when observed past the quiet
window; and after a cancel nothing fires. -/
theorem claim8_witness :
    runD 1500 debInit (eventsOf [(0, 10), (1000, 20)]) 2500 = [20] ∧
    runD 1500 (applyEvent 1500 (⟨some (3, 7)⟩ : DebState Nat)
      (DebEvent.cancelAt 5)) [] 9999 = [] := by
  have h := claim8_theorem 1500 2500 0 10 [(1000, 20)]
    (⟨by decide, by decide, trivial⟩ : rapid 1500 [(0, 10), (1000, 20)])
  exact ⟨h.1 (by decide), h.2.2 ⟨some (3, 7)⟩ 5 9999⟩

end SentiAnalysis
